import Mathlib

/-!
Verification of the `sqlshell` multi-line SQL reader and command dispatcher
(`src/sqlshell/__init__.py` and `src/sqlshell/config.py`), as a shallow
embedding in Lean.  Python strings are Lean `String`s manipulated through
their underlying `List Char`; Python exceptions become `Except`; the
interactive input stream becomes an explicit list of events.
-/

namespace SqlShell

/-! ## Python string primitives used by the shell -/

/-- Python `str.lstrip()` restricted to the ASCII whitespace that occurs in
SQL input: drop leading whitespace characters. -/
def pyLstrip (s : String) : String :=
  ⟨s.data.dropWhile Char.isWhitespace⟩

/-- Python `str.strip()`: drop leading and trailing whitespace. -/
def pyStrip (s : String) : String :=
  ⟨((s.data.dropWhile Char.isWhitespace).reverse.dropWhile Char.isWhitespace).reverse⟩

/-- Python `str.startswith(pre)`. -/
def pyStartsWith (s pre : String) : Bool :=
  pre.data.isPrefixOf s.data

/-- Python `str.endswith(suf)`. -/
def pyEndsWith (s suf : String) : Bool :=
  suf.data.isSuffixOf s.data

/-- Python `str.lower()` (ASCII). -/
def pyLower (s : String) : String :=
  ⟨s.data.map Char.toLower⟩

/-- One step of Python `str.split()` (no argument): skip inter-word
whitespace and gather maximal nonblank runs.  `acc` is the current word,
reversed. -/
def pySplitAux : List Char → List Char → List (List Char)
  | [], [] => []
  | [], acc => [acc.reverse]
  | c :: cs, acc =>
      if c.isWhitespace then
        match acc with
        | [] => pySplitAux cs []
        | _ => acc.reverse :: pySplitAux cs []
      else
        pySplitAux cs (c :: acc)

/-- Python `str.split()` with no argument: whitespace-delimited tokens,
empty tokens dropped. -/
def pySplit (s : String) : List String :=
  (pySplitAux s.data []).map String.mk

/-- The regular expression `^\d+$` (module constant `DIGITS`): true iff the
string is a non-empty run of decimal digits. -/
def matchesDIGITS (s : String) : Bool :=
  !s.data.isEmpty && s.data.all Char.isDigit

/-- Python `int(s)` on a string of decimal digits. -/
def pyIntOfDigits (s : String) : Nat :=
  s.data.foldl (fun acc c => acc * 10 + (c.toNat - '0'.toNat)) 0

/-- Python `str.ljust(w)`: pad on the right with blanks to width `w`. -/
def pyLjust (s : String) : Nat → String
  | w => ⟨s.data ++ List.replicate (w - s.data.length) ' '⟩

/-- Python `str.rjust(w)` as used by `f"{index:5d}"`: pad on the left. -/
def pyRjust (s : String) (w : Nat) : String :=
  ⟨List.replicate (w - s.data.length) ' ' ++ s.data⟩

/-- Group a reversed digit list in threes, comma-separated (helper for
`pyCommaFmt`). -/
def commaGroupRev : List Char → List Char
  | d1 :: d2 :: d3 :: d4 :: rest =>
      d1 :: d2 :: d3 :: ',' :: commaGroupRev (d4 :: rest)
  | ds => ds

/-- Python `f"{n:,}"` for a natural number: decimal digits with a comma
every three digits. -/
def pyCommaFmt (n : Nat) : String :=
  ⟨(commaGroupRev (Nat.repr n).data.reverse).reverse⟩

/-! ## Module constants (`src/sqlshell/__init__.py`, lines 62-63) -/

/-- `SQL_LINE_COMMENT_PREFIX = "--"`. -/
def sqlLineCommentMarker : String := "--"

/-! ## Statement Completeness Checker
(`sql_statement_is_complete`, lines 1271-1293) -/

/-- The quote-tracking loop body of `sql_statement_is_complete`: outside a
quote, `'` or `"` opens one; inside, only the identical character closes
it. -/
def quoteStep (in_quote : Option Char) (c : Char) : Option Char :=
  match in_quote with
  | some q => if c = q then none else some q
  | none => if c = '"' ∨ c = '\'' then some c else none

/-- `sql_statement_is_complete(s)`: fold `quoteStep` over the string; the
statement is complete iff no quote is open at the end and the string ends
with `";"`. -/
def sql_statement_is_complete (s : String) : Bool × Option Char :=
  let in_quote := s.data.foldl quoteStep none
  (decide (in_quote = none) && pyEndsWith s ";", in_quote)

/-- The claim's description of the scan, written from the spec's words for
comparison: a left-to-right naive quote-toggle with no escape handling,
carried out by explicit recursion. -/
def specQuoteScan : List Char → Option Char → Option Char
  | [], q => q
  | c :: cs, none =>
      if c = '\'' ∨ c = '"' then specQuoteScan cs (some c)
      else specQuoteScan cs none
  | c :: cs, some q =>
      if c = q then specQuoteScan cs none
      else specQuoteScan cs (some q)

theorem specQuoteScan_eq_foldl (cs : List Char) (q : Option Char) :
    specQuoteScan cs q = cs.foldl quoteStep q := by
  induction cs generalizing q with
  | nil => rfl
  | cons c cs ih =>
      cases q with
      | none =>
          by_cases h : c = '\'' ∨ c = '"'
          · rcases h with h | h <;> subst h <;>
              simp [specQuoteScan, quoteStep, List.foldl, ih]
          · have h' : ¬(c = '"' ∨ c = '\'') := by tauto
            simp only [specQuoteScan, quoteStep, List.foldl, if_neg h,
              if_neg h', ih]
      | some q =>
          by_cases h : c = q <;>
            simp [specQuoteScan, quoteStep, List.foldl, ih, h]

/-! ## Line filter for multi-line SQL
(`keep_multiline_sql_line`, lines 1296-1314) -/

/-- `keep_multiline_sql_line(line, in_quote)`: keep every line while inside
a quote; otherwise drop lines that are blank after `lstrip()` or start with
the SQL line-comment marker `--`. -/
def keep_multiline_sql_line (line : String) (in_quote : Bool) : Bool :=
  if in_quote then true
  else
    let line := pyLstrip line
    if line = "" then false
    else !pyStartsWith line sqlLineCommentMarker

/-! ## Interactive multi-line accumulator
(`read_and_run_sql`, lines 1415-1461)

The interactive input source is a list of events: `text` is a line returned
by `input()` (which, with readline loaded, also appends the line to the
history), `interrupt` is a `KeyboardInterrupt` raised inside `input()`, and
the end of the list is end-of-input (`EOFError`).  History is the readline
history as a list of lines, oldest first. -/

inductive InputEvent where
  | text (s : String)
  | interrupt
deriving DecidableEq, Repr

/-- The `while True` loop of `read_and_run_sql`.  Returns the completed
statement (or `none` on `EOFError` / `KeyboardInterrupt`) together with the
history as it stands when the loop exits.  `remove_last_history_item()`
drops the last history entry, hence `(hist ++ [line]).dropLast`. -/
def readSqlLoop (sql : String) (in_quote : Option Char) (hist : List String)
    (evs : List InputEvent) : Option String × List String :=
  let st := if sql ≠ "" then sql_statement_is_complete sql else (false, in_quote)
  if st.1 then (some sql, hist)
  else
    match evs with
    | [] => (none, hist)
    | .interrupt :: _ => (none, hist)
    | .text line :: rest =>
        let hist' := (hist ++ [line]).dropLast
        if keep_multiline_sql_line line st.2.isSome = false then
          readSqlLoop sql st.2 hist' rest
        else if st.2.isSome || sql == "" then
          readSqlLoop (sql ++ line) st.2 hist' rest
        else
          readSqlLoop (sql ++ " " ++ line) st.2 hist' rest

/-- `read_and_run_sql(first_line, ...)`.  On entry the caller's `input()`
has just appended `first_line` to the history; the function removes that
entry, accumulates a complete statement, and on success adds the single
consolidated entry and dispatches the statement (the dispatch itself is the
database collaborator and does not affect the returned data). -/
def read_and_run_sql (first_line : String) (hist : List String)
    (evs : List InputEvent) : Option String × List String :=
  let sql := if keep_multiline_sql_line first_line false then first_line else ""
  let hist := hist.dropLast
  match readSqlLoop sql none hist evs with
  | (some s, h) => (some s, h ++ [s])
  | (none, h) => (none, h)

/-! ## File-based multi-line accumulator
(the statement loop of `read_and_run_sql_file`, lines 1386-1406) -/

/-- Lines 1396-1400: strip a kept line when no quote is open, then append
it to the pending statement, joined by a single space. -/
def file_append (sql : String) (in_quote : Option Char) (line : String) :
    String :=
  let line := if in_quote = none then pyStrip line else line
  if sql = "" then line else sql ++ " " ++ line

/-- The statement loop of `read_and_run_sql_file` over the (already
blank/comment-trimmed) lines of the file: returns the complete statements
dispatched, in order, and the leftover pending text (non-empty iff the file
ended mid-statement).  `run_sql` is modelled as succeeding; it is the
database collaborator. -/
def readSqlFileLoop (sql : String) (in_quote : Option Char) :
    List String → List String × String
  | [] => ([], sql)
  | line :: rest =>
      if keep_multiline_sql_line line in_quote.isSome = false then
        readSqlFileLoop sql in_quote rest
      else
        let sql' := file_append sql in_quote line
        let st := sql_statement_is_complete sql'
        if st.1 then
          let out := readSqlFileLoop "" st.2 rest
          (sql' :: out.1, out.2)
        else
          readSqlFileLoop sql' st.2 rest

/-- `pyEndsWith s ";"` holds exactly when the last character of `s` is
`';'`. -/
theorem pyEndsWith_semi_iff (s : String) :
    pyEndsWith s ";" = true ↔ s.data.getLast? = some ';' := by
  unfold pyEndsWith
  rw [show (";" : String).data = [';'] from rfl,
    List.isSuffixOf_iff_suffix, List.getLast?_eq_some_iff]
  constructor <;> rintro ⟨t, h⟩ <;> exact ⟨t, h.symm⟩

/-- C1: `sql_statement_is_complete(s)` returns `(complete, q)` where `q`
is the final state of the naive left-to-right quote-toggle scan of `s`
(here `specQuoteScan`, written from the spec's words), and `complete` is
true iff `q` is `none` and the last character of `s` is `';'`.  In
particular the empty string is never complete, and a `';'` inside an open
quote (as in `select 'a;b`) does not make the text complete. -/
theorem claim_C1 (s : String) :
    (sql_statement_is_complete s).2 = specQuoteScan s.data none ∧
    ((sql_statement_is_complete s).1 = true ↔
      specQuoteScan s.data none = none ∧ s.data.getLast? = some ';') ∧
    (sql_statement_is_complete "").1 = false ∧
    (sql_statement_is_complete "select 'a;b';").1 = true ∧
    (sql_statement_is_complete "select 'a;b").1 = false := by
  refine ⟨?_, ?_, by decide, by decide, by decide⟩
  · simp [sql_statement_is_complete, specQuoteScan_eq_foldl]
  · simp [sql_statement_is_complete, specQuoteScan_eq_foldl,
      pyEndsWith_semi_iff]

/-- C2 counterexample: the interactive accumulator (`read_and_run_sql`)
does not trim kept lines; accumulating `"select * "` then `"from t;"`
yields `"select *  from t;"` (two spaces), not `"select * from t;"` as the
claim states. -/
theorem claim_C2_counterexample :
    (read_and_run_sql "select * " ["select * "] [.text "from t;"]).1 =
      some "select *  from t;" ∧
    some ("select *  from t;" : String) ≠ some "select * from t;" := by
  exact ⟨by decide, by decide⟩

/-- C2 (amended): in the file-based accumulator (`read_and_run_sql_file`),
a kept line appended to a non-empty pending statement is joined by exactly
one space and is stripped of leading/trailing whitespace when no quote is
open (taken verbatim inside a quote), so accumulating `"select * "` then
`"from t;"` from a file yields `"select * from t;"`; the interactive
accumulator (`read_and_run_sql`) joins with one space outside quotes but
does not trim, so the same two lines yield `"select *  from t;"`. -/
theorem claim_C2 :
    (∀ (sql line : String) (iq : Option Char), sql ≠ "" →
      file_append sql iq line =
        sql ++ " " ++ (if iq = none then pyStrip line else line)) ∧
    readSqlFileLoop "" none ["select * ", "from t;"] =
      (["select * from t;"], "") ∧
    (read_and_run_sql "select * " ["select * "] [.text "from t;"]).1 =
      some "select *  from t;" := by
  refine ⟨?_, by decide, by decide⟩
  intro sql line iq hsql
  simp only [file_append, if_neg hsql]

/-- C2 witness: the general part of `claim_C2` applied at a concrete
input. -/
theorem claim_C2_witness :
    file_append "select 1" none "  from t;  " = "select 1 from t;" := by
  rw [claim_C2.1 "select 1" "  from t;  " none (by decide)]
  decide

/-- C4: during multi-line accumulation a line is dropped iff the
accumulator is outside any quote and the line is blank after trimming or
begins, after leading whitespace, with the line-comment marker `--`; every
line read inside an open quote is kept.  Concretely, a line consisting
only of `--` submitted mid-accumulation never appears in the completed
statement. -/
theorem claim_C4 :
    (∀ (line : String) (iq : Bool),
      keep_multiline_sql_line line iq = false ↔
        iq = false ∧ (pyLstrip line = "" ∨
          pyStartsWith (pyLstrip line) sqlLineCommentMarker = true)) ∧
    (∀ line : String, keep_multiline_sql_line line true = true) ∧
    (read_and_run_sql "select 1" ["select 1"] [.text "--", .text ";"]).1 =
      some "select 1 ;" := by
  refine ⟨?_, ?_, by decide⟩
  · intro line iq
    cases iq with
    | true => simp [keep_multiline_sql_line]
    | false =>
        by_cases h : pyLstrip line = "" <;>
          simp [keep_multiline_sql_line, h]
  · intro line
    simp [keep_multiline_sql_line]

/-! ## Command classification
(the `match line.split()` dispatch of `run_command_loop`, lines 1507-1659)

Each constructor corresponds to one arm of the Python `match`.  The guards
on the first token are mutually exclusive string literals, so the if-chain
below reproduces the first-match-wins order of the source. -/

inductive Dispatch where
  | empty
  | quit
  | quitArityErr
  | connectCmd (spec : String)
  | connectUsage
  | helpAll
  | helpTopic (t : String)
  | helpUsage
  | fkeys (t : String)
  | fkeysUsage
  | importTable (t p : String) (existOk : Bool)
  | importUsage
  | indexes (t : String)
  | indexesUsage
  | limitShow
  | limitSet (n : Nat)
  | limitBadArg
  | limitUsage
  | runFile (p : String)
  | runUsage
  | tablesAll
  | tablesMatching
  | schemaCmd (t : String)
  | schemaUsage
  | exportTable (t p : String)
  | exportUsage
  | urlShow
  | urlArityErr
  | historyAll
  | historyN (n : Nat)
  | historyMatching
  | unknownCmd (c : String)
  | sql
deriving DecidableEq, Repr

/-- The dispatch over the whitespace-split tokens of the input line. -/
def classify_tokens : List String → Dispatch
  | [] => .empty
  | cmd :: args =>
      if cmd = ".exit" ∨ cmd = ".quit" then
        match args with
        | [] => .quit
        | _ => .quitArityErr
      else if cmd = ".connect" then
        match args with
        | [spec] => .connectCmd spec
        | _ => .connectUsage
      else if cmd = ".help" ∨ cmd = "?" then
        match args with
        | [] => .helpAll
        | [t] => .helpTopic t
        | _ => .helpUsage
      else if cmd = ".fk" then
        match args with
        | [t] => .fkeys t
        | _ => .fkeysUsage
      else if cmd = ".import" then
        match args with
        | [t, p] => .importTable t p true
        | ["-n", t, p] => .importTable t p false
        | _ => .importUsage
      else if cmd = ".indexes" then
        match args with
        | [t] => .indexes t
        | _ => .indexesUsage
      else if cmd = ".limit" then
        match args with
        | [] => .limitShow
        | [s] =>
            if matchesDIGITS s then .limitSet (pyIntOfDigits s)
            else .limitBadArg
        | _ => .limitUsage
      else if cmd = ".run" then
        match args with
        | [p] => .runFile p
        | _ => .runUsage
      else if cmd = ".tables" then
        match args with
        | [] => .tablesAll
        | _ => .tablesMatching
      else if cmd = ".schema" then
        match args with
        | [t] => .schemaCmd t
        | _ => .schemaUsage
      else if cmd = ".export" then
        match args with
        | [t, p] => .exportTable t p
        | _ => .exportUsage
      else if cmd = ".url" then
        match args with
        | [] => .urlShow
        | _ => .urlArityErr
      else if cmd = ".history" then
        match args with
        | [] => .historyAll
        | [n] =>
            if matchesDIGITS n then .historyN (pyIntOfDigits n)
            else .historyMatching
        | _ => .historyMatching
      else if pyStartsWith cmd "." then .unknownCmd cmd
      else .sql

/-- `run_command_loop` classifies `line.split()`. -/
def classify_line (line : String) : Dispatch :=
  classify_tokens (pySplit line)

/-- The session row limit after one loop iteration on `line`: it is
assigned only in the `[Command.LIMIT.value, s] if DIGITS.match(s)` arm
(line 1597-1598); every other arm leaves it alone.  The Python variable is
an `int`, modelled as `Int`. -/
def limit_after_line (line : String) (limit : Int) : Int :=
  match classify_line line with
  | .limitSet n => (n : Int)
  | _ => limit

/-- The message the `.limit` arms print (lines 1594-1604); `none` when the
arm prints nothing or the line is not a `.limit` command. -/
def limit_response (line : String) (limit : Int) : Option String :=
  match classify_line line with
  | .limitShow => some ("Limit is currently " ++ pyCommaFmt limit.toNat ++ ".")
  | .limitBadArg => some ".limit takes a non-negative integer"
  | .limitUsage => some "Usage: .limit <n>"
  | _ => none

/-! ## Loop continuation
(`run_command_loop`'s `while True` exits, lines 1507-1667) -/

/-- One event at the primary prompt. -/
inductive LoopEvent where
  | line (s : String)
  | eof
  | interrupt
deriving DecidableEq, Repr

/-- Whether the session loop breaks or continues after one primary-prompt
event: `EOFError` at the primary prompt and the quit commands break; a
`KeyboardInterrupt` and every other dispatch (including the SQL arm, whose
`read_and_run_sql` call handles end-of-input internally and returns)
continue. -/
inductive LoopAction where
  | breakLoop
  | continueLoop
deriving DecidableEq, Repr

def loop_step_action (ev : LoopEvent) : LoopAction :=
  match ev with
  | .eof => .breakLoop
  | .interrupt => .continueLoop
  | .line s =>
      match classify_line s with
      | .quit => .breakLoop
      | _ => .continueLoop

/-- Invariant of the accumulation loop: the history is untouched across
iterations (each `input()` appends one raw line and the immediately
following `remove_last_history_item()` removes it), so when the loop ends
without a statement the history equals what it was on entry. -/
theorem readSqlLoop_abort_hist (evs : List InputEvent) :
    ∀ (sql : String) (iq : Option Char) (hist : List String),
      (readSqlLoop sql iq hist evs).1 = none →
      (readSqlLoop sql iq hist evs).2 = hist := by
  induction evs with
  | nil =>
      intro sql iq hist h
      simp only [readSqlLoop, ne_eq, ite_not] at h ⊢
      set st := (if sql = "" then ((false : Bool), iq)
        else sql_statement_is_complete sql) with hst
      by_cases hc : st.1 = true
      · rw [if_pos hc] at h
        simp at h
      · rw [if_neg hc]
  | cons ev rest ih =>
      intro sql iq hist h
      cases ev with
      | interrupt =>
          simp only [readSqlLoop, ne_eq, ite_not] at h ⊢
          set st := (if sql = "" then ((false : Bool), iq)
            else sql_statement_is_complete sql) with hst
          by_cases hc : st.1 = true
          · rw [if_pos hc] at h
            simp at h
          · rw [if_neg hc]
      | text line =>
          simp only [readSqlLoop, ne_eq, ite_not] at h ⊢
          set st := (if sql = "" then ((false : Bool), iq)
            else sql_statement_is_complete sql) with hst
          by_cases hc : st.1 = true
          · rw [if_pos hc] at h
            simp at h
          · rw [if_neg hc] at h ⊢
            simp only [List.dropLast_concat] at h ⊢
            by_cases hk : keep_multiline_sql_line line st.2.isSome = false
            · rw [if_pos hk] at h ⊢
              exact ih _ _ _ h
            · rw [if_neg hk] at h ⊢
              by_cases hq : (st.2.isSome || (sql == "")) = true
              · rw [if_pos hq] at h ⊢
                exact ih _ _ _ h
              · rw [if_neg hq] at h ⊢
                exact ih _ _ _ h

/-- C5: if end-of-input or an interrupt arrives while a multi-line SQL
statement is being accumulated, `read_and_run_sql` returns without
dispatching a statement, the final history is exactly the history from
before the first line was logged (every raw line consumed was removed and
the consolidated entry was never added), and the session loop continues:
a SQL-classified line never breaks the primary loop. -/
theorem claim_C5 :
    (∀ (first_line : String) (hist : List String) (evs : List InputEvent),
      (read_and_run_sql first_line hist evs).1 = none →
        (read_and_run_sql first_line hist evs).2 = hist.dropLast) ∧
    (∀ s : String, classify_line s = .sql →
      loop_step_action (.line s) = .continueLoop) := by
  constructor
  · intro fl hist evs h
    simp only [read_and_run_sql] at h ⊢
    rcases hr : readSqlLoop
        (if keep_multiline_sql_line fl false = true then fl else "")
        none hist.dropLast evs with ⟨r1, r2⟩
    rw [hr] at h
    cases r1 with
    | some s => exact Option.noConfusion h
    | none =>
        have h2 := readSqlLoop_abort_hist evs
          (if keep_multiline_sql_line fl false = true then fl else "")
          none hist.dropLast (by rw [hr])
        rw [hr] at h2
        exact h2
  · intro s h
    simp [loop_step_action, h]

/-- C5 witness: an interrupt after one continuation line was consumed
discards the statement and leaves the history as it was before the first
raw line was logged. -/
theorem claim_C5_witness :
    (read_and_run_sql "select 1" ["x", "select 1"]
        [.text "select", .interrupt]).1 = none ∧
    (read_and_run_sql "select 1" ["x", "select 1"]
        [.text "select", .interrupt]).2 = ["x"] ∧
    loop_step_action (.line "select 1") = .continueLoop := by
  refine ⟨by decide, ?_, ?_⟩
  · have h := claim_C5.1 "select 1" ["x", "select 1"]
      [.text "select", .interrupt] (by decide)
    rw [h]
    decide
  · exact claim_C5.2 "select 1" (by decide)

/-- C7: `.limit` with no argument reports the current limit and leaves it
unchanged; `.limit 0` sets the limit to 0; `.limit -1` and `.limit abc`
report the type error and leave the limit unchanged; and after any input
line the row limit is still a non-negative integer. -/
theorem claim_C7 (limit : Int) (hl : 0 ≤ limit) :
    limit_after_line ".limit" limit = limit ∧
    limit_response ".limit" limit =
      some ("Limit is currently " ++ pyCommaFmt limit.toNat ++ ".") ∧
    limit_after_line ".limit 0" limit = 0 ∧
    limit_after_line ".limit -1" limit = limit ∧
    limit_response ".limit -1" limit =
      some ".limit takes a non-negative integer" ∧
    limit_after_line ".limit abc" limit = limit ∧
    limit_response ".limit abc" limit =
      some ".limit takes a non-negative integer" ∧
    ∀ line : String, 0 ≤ limit_after_line line limit := by
  have h1 : classify_line ".limit" = Dispatch.limitShow := by decide
  have h2 : classify_line ".limit 0" = Dispatch.limitSet 0 := by decide
  have h3 : classify_line ".limit -1" = Dispatch.limitBadArg := by decide
  have h4 : classify_line ".limit abc" = Dispatch.limitBadArg := by decide
  refine ⟨?_, ?_, ?_, ?_, ?_, ?_, ?_, ?_⟩
  · simp [limit_after_line, h1]
  · simp [limit_response, h1]
  · simp [limit_after_line, h2]
  · simp [limit_after_line, h3]
  · simp [limit_response, h3]
  · simp [limit_after_line, h4]
  · simp [limit_response, h4]
  · intro line
    unfold limit_after_line
    cases hc : classify_line line <;> simp [hc] <;> exact hl

/-- C7 witness: `claim_C7` at limit 0. -/
theorem claim_C7_witness :
    limit_after_line ".limit 0" 0 = 0 ∧
    limit_after_line ".limit -1" 0 = 0 ∧
    limit_after_line ".limit abc" 0 = 0 := by
  have h := claim_C7 0 (by decide)
  exact ⟨h.2.2.1, h.2.2.2.1, h.2.2.2.2.2.1⟩

/-- C10: a primary-prompt line beginning with `--` matches no meta-command
arm and is dispatched as SQL; `read_and_run_sql` then drops it (it
contributes nothing and is removed from the history) and, because the
empty accumulated text is never complete, reads continuation lines
instead of returning a statement (here it completes using the next line,
which alone forms the statement). -/
theorem claim_C10 :
    classify_line "--" = Dispatch.sql ∧
    keep_multiline_sql_line "--" false = false ∧
    (∀ hist : List String,
      read_and_run_sql "--" hist [] = (none, hist.dropLast)) ∧
    (read_and_run_sql "--" ["--"] [.text "select 1;"]).1 =
      some "select 1;" := by
  refine ⟨by decide, by decide, ?_, by decide⟩
  intro hist
  rfl

/-! ## Configuration lookup and startup
(`src/sqlshell/config.py` and `lookup_db_url` / `connect_to_new_db` /
`run_command_loop` / `main`, lines 1170-1257, 1464-1507, 1729-1743) -/

/-- `config.ConnectionConfig`. -/
structure ConnectionConfig where
  name : String
  url : String
  history_file : Option String
deriving DecidableEq, Repr

/-- `config.Configuration`: the parsed sections and the file path. -/
structure Configuration where
  configs : List ConnectionConfig
  path : String
deriving DecidableEq, Repr

/-- `Configuration.lookup(spec)`: all sections whose lower-cased name
starts with the lower-cased spec; `None` when there are no matches. -/
def Configuration.lookup (cfg : Configuration) (spec : String) :
    Option (List ConnectionConfig) :=
  let found := cfg.configs.filter
    (fun c => pyStartsWith (pyLower c.name) (pyLower spec))
  if found.isEmpty then none else some found

/-- The exceptions that can cross these functions. -/
inductive PyErr where
  | tooManyMatches
  | assertionFailed
deriving DecidableEq, Repr

/-- `lookup_db_url(configuration, name, history)`: raises
`TooManyMatchesError` when the spec matches more than one section (the
`case configs` arm); the impossible empty-match arm is the Python
`assert False`. -/
def lookup_db_url (cfg : Option Configuration) (name hist : String) :
    Except PyErr (String × String) :=
  match cfg with
  | none => .ok (name, hist)
  | some c =>
      match c.lookup name with
      | none => .ok (name, hist)
      | some [c1] =>
          .ok (c1.url, match c1.history_file with
            | some h => h
            | none => hist)
      | some [] => .error .assertionFailed
      | some _ => .error .tooManyMatches

/-- `connect_to_new_db(db_spec, configuration, history_file)`:
`TooManyMatchesError` is caught here — the error is printed and
`(None, history_file)` returned.  `connectOk` abstracts the database
engine collaborator (`create_engine` + `get_tables` probe); a failed
connection is also reported and returned as `None`. -/
def connect_to_new_db (connectOk : String → Bool)
    (cfg : Option Configuration) (db_spec hist : String) :
    Except PyErr (Option String × String) :=
  match lookup_db_url cfg db_spec hist with
  | .error .tooManyMatches => .ok (none, hist)
  | .error e => .error e
  | .ok (url, h) => if connectOk url then .ok (some url, h) else .ok (none, h)

/-- The startup part of `run_command_loop`: when `connect_to_new_db`
returns `None` the function just returns (`# Already reported.`); the
returned boolean says whether the command loop was entered. -/
def run_command_loop_start (connectOk : String → Bool)
    (cfg : Option Configuration) (db_spec hist : String) :
    Except PyErr Bool :=
  match connect_to_new_db connectOk cfg db_spec hist with
  | .error e => .error e
  | .ok (e, _) => .ok e.isSome

/-- The process exit status of `main` for the startup path: 1 when an
exception escapes `run_command_loop` (the `except (AbortError,
ConfigurationError, TooManyMatchesError)` handler calls `sys.exit(1)`,
and an uncaught exception also terminates with a non-zero status),
otherwise 0. -/
def main_exit_code (connectOk : String → Bool)
    (cfg : Option Configuration) (db_spec hist : String) : Nat :=
  match run_command_loop_start connectOk cfg db_spec hist with
  | .ok _ => 0
  | .error _ => 1

/-- A configuration file with two sections that both match the spec
`"db"`. -/
def ambiguousConfig : Configuration :=
  ⟨[⟨"db1", "url1", none⟩, ⟨"db2", "url2", none⟩], "test.cfg"⟩

/-- C3 (the code violates the claim): with a configuration whose sections
`db1` and `db2` both match the startup argument `"db"`, the lookup is
ambiguous and `lookup_db_url` raises `TooManyMatchesError`, but
`connect_to_new_db` catches it and returns `None`, `run_command_loop`
returns normally without starting a session, and `main` exits with
status 0 — not the non-zero status the claim (and `main`'s own, now
unreachable, `except TooManyMatchesError: sys.exit(1)` handler)
requires. -/
theorem claim_C3_code_bug :
    (ambiguousConfig.lookup "db").map List.length = some 2 ∧
    lookup_db_url (some ambiguousConfig) "db" "h" =
      .error .tooManyMatches ∧
    connect_to_new_db (fun _ => true) (some ambiguousConfig) "db" "h" =
      .ok (none, "h") ∧
    run_command_loop_start (fun _ => true) (some ambiguousConfig) "db" "h" =
      .ok false ∧
    main_exit_code (fun _ => true) (some ambiguousConfig) "db" "h" = 0 := by
  exact ⟨rfl, rfl, rfl, rfl, rfl⟩

/-! ## Result renderer
(`display_results`, lines 441-544)

A row is an association list from column name to value; a value is
`none` for SQL NULL and `some v` for a non-null value already rendered by
`str()`.  The result is the sequence of strings passed to `print()`, or
`none` when the `assert total == len(data)` in the unlimited branch
fails.  The optional elapsed-time suffix is a float format and is outside
this embedding. -/

/-- `get_datum_as_string(row, col)`: `"NULL"` for a missing key or a
`None` value. -/
def get_datum_as_string (row : List (String × Option String))
    (col : String) : String :=
  match row.lookup col with
  | some (some v) => v
  | _ => "NULL"

/-- `make_output_line(fields, delim, pad_char)`. -/
def make_output_line (fields : List String) (delim pad : String) : String :=
  delim ++ pad ++ String.intercalate (pad ++ delim ++ pad) fields ++
    pad ++ delim

/-- The display width of a column: the header length, then the maximum
over every rendered cell (the two `for col in columns` loops). -/
def column_width (data : List (List (String × Option String)))
    (col : String) : Nat :=
  data.foldl
    (fun w row => max w (get_datum_as_string row col).data.length)
    col.data.length

/-- `display_results(columns, data, limit, total, no_results_message)`:
the list of strings printed.  With no rows, only the no-results message
(Python `or` replaces an empty message with `"No data."`).  Otherwise the
bordered grid followed by the summary; the final `print(f"{epilog}\n")`
passes `epilog ++ "\n"`. -/
def display_results (columns : List String)
    (data : List (List (String × Option String)))
    (limit : Int) (total : Nat) (no_results_message : Option String) :
    Option (List String) :=
  if data.isEmpty then
    some [match no_results_message with
          | some m => if m = "" then "No data." else m
          | none => "No data."]
  else
    let fields := columns.map (fun col => pyLjust col (column_width data col))
    let sep := columns.map
      (fun col => (⟨List.replicate (column_width data col) '-'⟩ : String))
    let grid :=
      [make_output_line sep "+" "-",
       make_output_line fields "|" " ",
       make_output_line sep "+" "-"] ++
      data.map (fun row => make_output_line
        (columns.map (fun col =>
          pyLjust (get_datum_as_string row col) (column_width data col)))
        "|" " ") ++
      [make_output_line sep "+" "-"]
    if 0 < limit then
      let suffix := if 1 < total then "s" else ""
      some (grid ++ [pyCommaFmt data.length ++ " of " ++ pyCommaFmt total ++
        " row" ++ suffix ++ "\n"])
    else
      if total = data.length then
        let suffix := if 1 < data.length then "s" else ""
        some (grid ++ [pyCommaFmt data.length ++ " row" ++ suffix ++ "\n"])
      else
        none

/-- C6: for every non-empty result set (with the documented precondition
that `total` counts at least the returned rows), the summary printed last
is `"<returned> of <total> row"` with an `s` appended iff `total ≠ 1`
when the row limit is positive, and `"<returned> row"` with an `s`
appended iff the returned count is not 1 when the limit is 0; with
`limit = 2`, `total = 5` and 2 returned rows it reads `"2 of 5 rows"`. -/
theorem claim_C6 (columns : List String)
    (data : List (List (String × Option String)))
    (limit : Int) (total : Nat) (msg : Option String)
    (hne : data ≠ []) (hT : data.length ≤ total) :
    (0 < limit →
      (display_results columns data limit total msg).bind List.getLast? =
        some (pyCommaFmt data.length ++ " of " ++ pyCommaFmt total ++
          " row" ++ (if total = 1 then "" else "s") ++ "\n")) ∧
    (limit = 0 → total = data.length →
      (display_results columns data limit total msg).bind List.getLast? =
        some (pyCommaFmt data.length ++ " row" ++
          (if data.length = 1 then "" else "s") ++ "\n")) ∧
    (display_results ["c"] [[("c", some "1")], [("c", some "2")]]
        2 5 none).bind List.getLast? = some ("2 of 5 rows" ++ "\n") := by
  have hlen : 1 ≤ data.length := by
    cases data with
    | nil => exact absurd rfl hne
    | cons a l => exact Nat.succ_le_succ (Nat.zero_le _)
  have hEmp : data.isEmpty = false := by
    cases data with
    | nil => exact absurd rfl hne
    | cons a l => rfl
  refine ⟨?_, ?_, by decide⟩
  · intro hlim
    have h1 : 1 ≤ total := le_trans hlen hT
    have hsfx : (if 1 < total then "s" else "") =
        (if total = 1 then "" else "s") := by
      rcases Nat.lt_or_ge 1 total with h | h
      · rw [if_pos h, if_neg (by omega)]
      · have ht1 : total = 1 := le_antisymm h h1
        rw [ht1]
        decide
    simp only [display_results, hEmp, Bool.false_eq_true, if_false,
      if_pos hlim, hsfx, Option.some_bind]
    exact List.getLast?_concat _
  · intro hlim htot
    have hsfx : (if 1 < data.length then "s" else "") =
        (if data.length = 1 then "" else "s") := by
      rcases Nat.lt_or_ge 1 data.length with h | h
      · rw [if_pos h, if_neg (by omega)]
      · have hd1 : data.length = 1 := le_antisymm h hlen
        rw [hd1]
        decide
    simp only [display_results, hEmp, Bool.false_eq_true, if_false, hlim,
      lt_irrefl, if_pos htot, hsfx, Option.some_bind]
    exact List.getLast?_concat _

/-- C6 witness: `claim_C6` at one row, limit 3, total 4. -/
theorem claim_C6_witness :
    (display_results ["c"] [[("c", some "x")]] 3 4 none).bind
        List.getLast? = some ("1 of 4 rows" ++ "\n") := by
  have h := (claim_C6 ["c"] [[("c", some "x")]] 3 4 none
    (by decide) (by decide)).1 (by decide)
  rw [h]
  rfl

/-! ## History display and pattern search
(`format_history_item` / `show_history` / `show_history_matching`, lines
985-1044, and `show_tables_matching`, lines 761-787)

`shlex.split` and `re.compile`/`search` are Python standard-library
collaborators; they are passed in as parameters.  A compiled pattern is a
search predicate on subject strings; `re.compile(p)` may fail with
`re.error`, modelled as `Except`.  The boolean argument of the compile
parameter is the `re.I` (IGNORECASE) flag.  Readline history is the list
of entries, oldest first; `readline.get_history_item(i)` is 1-based. -/

/-- `format_history_item(line, index)`: `f"{index:5d}. {line}"`. -/
def format_history_item (line : String) (index : Nat) : String :=
  pyRjust (Nat.repr index) 5 ++ ". " ++ line

/-- The `(index, line)` pairs `show_history(total)` prints:
`range(1, history_length)` stops one short of the newest entry, and a
positive `total` keeps only the trailing slice `[-total:]`. -/
def show_history_items (total : Nat) (hist : List String) :
    List (Nat × String) :=
  let items := (List.range' 1 (hist.length - 1)).map
    (fun i => (i, hist.getD (i - 1) ""))
  if 0 < total then items.drop (items.length - total) else items

/-- `show_history(total)`: the printed lines. -/
def show_history (total : Nat) (hist : List String) : List String :=
  (show_history_items total hist).map (fun x => format_history_item x.2 x.1)

/-- `show_history_matching(line)`: re-split the whole line with shlex,
check it starts with `.history` (Python `assert`), require exactly two
tokens (else `ValueError`, caught and printed), compile the pattern
case-sensitively (no flag), and print every history item in
`range(1, history_length + 1)` whose text matches.  `.error` is an
exception escaping to the caller; `.ok` is a normal return carrying the
printed lines. -/
def show_history_matching (shlexSplit : String → List String)
    (reCompile : String → Bool → Except String (String → Bool))
    (line : String) (hist : List String) : Except String (List String) :=
  match shlexSplit line with
  | [] => .error "IndexError"
  | t0 :: rest =>
      if t0 ≠ ".history" then .error "AssertionError"
      else
        match rest with
        | [p] =>
            match reCompile p false with
            | .error e => .ok ["Bad regular expression: " ++ e]
            | .ok f =>
                .ok ((((List.range' 1 hist.length).map
                    (fun i => (i, hist.getD (i - 1) ""))).filter
                    (fun x => f x.2)).map
                  (fun x => format_history_item x.2 x.1))
        | _ => .ok ["Too many parameters."]

/-- `show_tables_matching(line, engine)`: same shape, but the pattern is
compiled with `re.I` (flag `true`) and matched against the table names
from the engine collaborator. -/
def show_tables_matching (shlexSplit : String → List String)
    (reCompile : String → Bool → Except String (String → Bool))
    (line : String) (tableNames : List String) :
    Except String (List String) :=
  match shlexSplit line with
  | [] => .error "IndexError"
  | t0 :: rest =>
      if t0 ≠ ".tables" then .error "AssertionError"
      else
        match rest with
        | [p] =>
            match reCompile p true with
            | .error e => .ok ["Bad regular expression: " ++ e]
            | .ok f => .ok (tableNames.filter f)
        | _ => .ok ["Too many parameters."]

/-- A concrete stand-in for the `re` collaborator used to witness the
flag difference: the pattern matches subjects it prefixes, lower-casing
both sides when the IGNORECASE flag is set, and the pattern `"["` is
malformed. -/
def toyCompile (p : String) (ignoreCase : Bool) :
    Except String (String → Bool) :=
  if p = "[" then .error "unbalanced bracket"
  else .ok (fun s =>
    if ignoreCase then pyStartsWith (pyLower s) (pyLower p)
    else pyStartsWith s p)

/-- C8: `.tables` compiles its pattern with the IGNORECASE flag and
prints the table names the compiled pattern matches, while `.history`
compiles its pattern without the flag (case-sensitive) and scans the
history; for both, a malformed pattern (the compile collaborator returns
`re.error`) produces a reported message and a normal return — never a
propagated exception.  The concrete conjuncts exhibit the difference with
a prefix-matching stand-in engine: pattern `foo` matches table `FOO1`
but matches no history line, and the malformed pattern `[` is reported
by both commands. -/
theorem claim_C8 :
    (∀ (shx : String → List String)
       (rc : String → Bool → Except String (String → Bool))
       (line p : String) (f : String → Bool) (names : List String),
      shx line = [".tables", p] → rc p true = .ok f →
      show_tables_matching shx rc line names = .ok (names.filter f)) ∧
    (∀ (shx : String → List String)
       (rc : String → Bool → Except String (String → Bool))
       (line p : String) (f : String → Bool) (hist : List String),
      shx line = [".history", p] → rc p false = .ok f →
      show_history_matching shx rc line hist =
        .ok ((((List.range' 1 hist.length).map
            (fun i => (i, hist.getD (i - 1) ""))).filter
            (fun x => f x.2)).map
          (fun x => format_history_item x.2 x.1))) ∧
    (∀ (shx : String → List String)
       (rc : String → Bool → Except String (String → Bool))
       (line p e : String) (names : List String),
      shx line = [".tables", p] → rc p true = .error e →
      show_tables_matching shx rc line names =
        .ok ["Bad regular expression: " ++ e]) ∧
    (∀ (shx : String → List String)
       (rc : String → Bool → Except String (String → Bool))
       (line p e : String) (hist : List String),
      shx line = [".history", p] → rc p false = .error e →
      show_history_matching shx rc line hist =
        .ok ["Bad regular expression: " ++ e]) ∧
    show_tables_matching pySplit toyCompile ".tables foo"
      ["FOO1", "bar"] = .ok ["FOO1"] ∧
    show_history_matching pySplit toyCompile ".history foo"
      ["FOO1", "bar"] = .ok [] ∧
    show_tables_matching pySplit toyCompile ".tables [" ["FOO1"] =
      .ok ["Bad regular expression: unbalanced bracket"] ∧
    show_history_matching pySplit toyCompile ".history [" ["FOO1"] =
      .ok ["Bad regular expression: unbalanced bracket"] := by
  refine ⟨?_, ?_, ?_, ?_, rfl, rfl, rfl, rfl⟩
  · intro shx rc line p f names hs hc
    simp [show_tables_matching, hs, hc]
  · intro shx rc line p f hist hs hc
    simp [show_history_matching, hs, hc]
  · intro shx rc line p e names hs hc
    simp [show_tables_matching, hs, hc]
  · intro shx rc line p e hist hs hc
    simp [show_history_matching, hs, hc]

/-- C8 witness: the general conjuncts of `claim_C8` applied to the
stand-in engine at concrete inputs. -/
theorem claim_C8_witness :
    show_tables_matching pySplit toyCompile ".tables ba"
      ["FOO1", "bar"] = .ok ["bar"] ∧
    show_history_matching pySplit toyCompile ".history zz" ["zz9"] =
      .ok [format_history_item "zz9" 1] := by
  constructor
  · have h := claim_C8.1 pySplit toyCompile ".tables ba" "ba"
      (fun s =>
        if (true : Bool) = true then pyStartsWith (pyLower s) (pyLower "ba")
        else pyStartsWith s "ba")
      ["FOO1", "bar"] rfl rfl
    rw [h]
    rfl
  · have h := claim_C8.2.1 pySplit toyCompile ".history zz" "zz"
      (fun s =>
        if (false : Bool) = true then pyStartsWith (pyLower s) (pyLower "zz")
        else pyStartsWith s "zz")
      ["zz9"] rfl rfl
    rw [h]
    rfl

/-- C9: for a history with at least one entry, `show_history` (the
`.history` command with no or a numeric argument) enumerates only the
1-based indexes 1 through n-1 — the newest entry, index n, is never
listed — whereas the regex search `show_history_matching` scans indexes
1 through n inclusive, so the two forms disagree on whether the newest
entry can be shown. -/
theorem claim_C9 (hist : List String) (h1 : 1 ≤ hist.length) :
    ((show_history_items 0 hist).map Prod.fst =
      List.range' 1 (hist.length - 1)) ∧
    (∀ total : Nat,
      hist.length ∉ (show_history_items total hist).map Prod.fst) ∧
    (show_history_matching pySplit (fun _ _ => .ok (fun _ => true))
        ".history x" hist =
      .ok ((List.range' 1 hist.length).map
        (fun i => format_history_item (hist.getD (i - 1) "") i))) ∧
    hist.length ∈ List.range' 1 hist.length := by
  have hbase : ((List.range' 1 (hist.length - 1)).map
      (fun i => (i, hist.getD (i - 1) ""))).map Prod.fst =
      List.range' 1 (hist.length - 1) := by
    rw [List.map_map,
      show (Prod.fst ∘ fun i => (i, hist.getD (i - 1) "")) =
        fun i : Nat => i from rfl,
      List.map_id']
  refine ⟨?_, ?_, ?_, ?_⟩
  · simp only [show_history_items, lt_irrefl, if_false]
    exact hbase
  · intro total hmem
    have hin : hist.length ∈ ((List.range' 1 (hist.length - 1)).map
        (fun i => (i, hist.getD (i - 1) ""))).map Prod.fst := by
      simp only [show_history_items] at hmem
      by_cases ht : 0 < total
      · rw [if_pos ht, List.map_drop] at hmem
        exact List.drop_subset _ _ hmem
      · rwa [if_neg ht] at hmem
    rw [hbase] at hin
    rw [List.mem_range'_1] at hin
    omega
  · have hsx : pySplit ".history x" = [".history", "x"] := rfl
    simp [show_history_matching, hsx, List.map_map, Function.comp]
  · rw [List.mem_range'_1]
    omega

/-- C9 witness: `claim_C9` at a two-entry history. -/
theorem claim_C9_witness :
    (show_history_items 0 ["a", "b"]).map Prod.fst = [1] ∧
    2 ∉ (show_history_items 0 ["a", "b"]).map Prod.fst ∧
    show_history_matching pySplit (fun _ _ => .ok (fun _ => true))
      ".history x" ["a", "b"] =
      .ok [format_history_item "a" 1, format_history_item "b" 2] := by
  have h := claim_C9 ["a", "b"] (by decide)
  refine ⟨?_, h.2.1 0, ?_⟩
  · rw [h.1]
    rfl
  · rw [h.2.2.1]
    rfl

end SqlShell
